import Mathlib

/-!
Shallow embedding of the friends CRUD backend (src/server.js).

The server keeps a single SQLite table `friends` and exposes five JSON
routes over it.  We model the table as a list of rows together with the
AUTOINCREMENT counter, and each route handler as a pure function from a
request (and, for insertion, the current timestamp) and a database state
to a response paired with the successor state.  JavaScript `undefined` /
JSON-absent values are modelled by `Option`; SQL `NULL` in a stored row
is likewise `Option.none`.  REAL columns carry `Rat` (the handlers never
do arithmetic on coordinates, only truthiness tests and storage).
-/

/-- A pair of coordinates as it appears in a request body
(`coords : {lat, lng}`); either component may be absent. -/
structure Coords where
  lat : Option Rat
  lng : Option Rat
deriving DecidableEq, Repr

/-- The JSON body of `POST /api/friends` as destructured by the handler:
`const { name, location, notes, otherCities, coords, displayName } = req.body`.
Any field may be absent. -/
structure CreateReq where
  name : Option String
  location : Option String
  notes : Option String
  otherCities : Option String
  coords : Option Coords
  displayName : Option String
deriving DecidableEq, Repr

/-- A row of the `friends` table (schema from the `CREATE TABLE` at
startup): `name`, `location`, `latitude`, `longitude` are NOT NULL;
`notes`, `otherCities`, `displayName` are nullable; `timestamp` defaults
to the insertion time (modelled as a `Nat`). -/
structure Row where
  id : Nat
  name : String
  location : String
  notes : Option String
  otherCities : Option String
  latitude : Rat
  longitude : Rat
  displayName : Option String
  timestamp : Nat
deriving DecidableEq, Repr

/-- The database state: the rows of the `friends` table in insertion
order, and the next id the AUTOINCREMENT column will assign. -/
structure DB where
  rows : List Row
  nextId : Nat
deriving DecidableEq, Repr

/-- Outcome of a route handler: a 200 JSON body, a 400 validation error,
or a 404 not-found error (the error string is the `error` field of the
JSON error body). -/
inductive ApiResult (α : Type) where
  | ok (body : α)
  | badRequest (error : String)
  | notFound (error : String)
deriving DecidableEq, Repr

/-- The HTTP status code carried by each `ApiResult` constructor. -/
def ApiResult.status : ApiResult α → Nat
  | .ok _ => 200
  | .badRequest _ => 400
  | .notFound _ => 404

/-- JavaScript falsiness of an optional string: absent (`undefined`) or
the empty string. -/
def jsFalsyStr : Option String → Bool
  | none => true
  | some s => s == ""

/-- JavaScript falsiness of an optional number: absent (`undefined`) or
zero. -/
def jsFalsyNum : Option Rat → Bool
  | none => true
  | some x => x == 0

/-- The validation test of `POST /api/friends`:
`!name || !location || !coords || !coords.lat || !coords.lng`. -/
def createFailsValidation (req : CreateReq) : Bool :=
  jsFalsyStr req.name || jsFalsyStr req.location || req.coords.isNone
    || jsFalsyNum (req.coords.bind Coords.lat)
    || jsFalsyNum (req.coords.bind Coords.lng)

/-- JavaScript `v || null`, applied by the insert to the optional text
fields: an absent or empty string becomes SQL NULL. -/
def orNull : Option String → Option String
  | none => none
  | some s => if s = "" then none else some s

/-- The success body of `POST /api/friends`: the generated id, the raw
request fields echoed back unchanged, and the fixed message. -/
structure CreateResp where
  id : Nat
  name : Option String
  location : Option String
  notes : Option String
  otherCities : Option String
  coords : Option Coords
  displayName : Option String
  message : String
deriving DecidableEq, Repr

/-- Handler of `POST /api/friends`: validate by truthiness, then insert a
row (optional text fields passed through `|| null`, coordinates taken
from `coords.lat` / `coords.lng`) and echo the raw request fields back
together with `this.lastID`.  `now` is the `CURRENT_TIMESTAMP` default
filled in by the database. -/
def createFriend (req : CreateReq) (now : Nat) (db : DB) :
    ApiResult CreateResp × DB :=
  if createFailsValidation req then
    (.badRequest "Name, location, and coordinates are required", db)
  else
    let row : Row :=
      { id := db.nextId
        name := req.name.getD ""
        location := req.location.getD ""
        notes := orNull req.notes
        otherCities := orNull req.otherCities
        latitude := (req.coords.bind Coords.lat).getD 0
        longitude := (req.coords.bind Coords.lng).getD 0
        displayName := orNull req.displayName
        timestamp := now }
    (.ok { id := db.nextId
           name := req.name
           location := req.location
           notes := req.notes
           otherCities := req.otherCities
           coords := req.coords
           displayName := req.displayName
           message := "Friend added successfully" },
     { rows := db.rows ++ [row], nextId := db.nextId + 1 })

/-- `ORDER BY timestamp DESC`: a stable sort of the table by descending
timestamp. -/
def orderByTimestampDesc (rows : List Row) : List Row :=
  rows.mergeSort fun a b => decide (b.timestamp ≤ a.timestamp)

/-- An element of the privileged list response (`GET /api/friends`):
every column, with latitude/longitude folded into a `coords` object. -/
structure FriendFull where
  id : Nat
  name : String
  location : String
  notes : Option String
  otherCities : Option String
  coords : Coords
  displayName : Option String
  timestamp : Nat
deriving DecidableEq, Repr

/-- An element of the public list response (`GET /api/friends/public`):
only `id, name, location, latitude, longitude, displayName, timestamp`
are selected, so `notes` and `otherCities` never appear. -/
structure FriendPublic where
  id : Nat
  name : String
  location : String
  coords : Coords
  displayName : Option String
  timestamp : Nat
deriving DecidableEq, Repr

/-- The row-to-JSON mapping of `GET /api/friends`. -/
def rowFull (r : Row) : FriendFull :=
  { id := r.id
    name := r.name
    location := r.location
    notes := r.notes
    otherCities := r.otherCities
    coords := ⟨some r.latitude, some r.longitude⟩
    displayName := r.displayName
    timestamp := r.timestamp }

/-- The row-to-JSON mapping of `GET /api/friends/public`. -/
def rowPublic (r : Row) : FriendPublic :=
  { id := r.id
    name := r.name
    location := r.location
    coords := ⟨some r.latitude, some r.longitude⟩
    displayName := r.displayName
    timestamp := r.timestamp }

/-- Handler of `GET /api/friends`: `SELECT * FROM friends ORDER BY
timestamp DESC`, every column mapped into the response. -/
def getFriends (db : DB) : ApiResult (List FriendFull) :=
  .ok ((orderByTimestampDesc db.rows).map rowFull)

/-- Handler of `GET /api/friends/public`: the same ordering over the
public column projection. -/
def getFriendsPublic (db : DB) : ApiResult (List FriendPublic) :=
  .ok ((orderByTimestampDesc db.rows).map rowPublic)

/-- Handler of `DELETE /api/friends/:id`: `DELETE FROM friends WHERE
id = ?`, then 404 when `this.changes` is zero and a success message
otherwise. -/
def deleteFriend (fid : Nat) (db : DB) : ApiResult String × DB :=
  let remaining := db.rows.filter fun r => !(r.id == fid)
  let changes := db.rows.length - remaining.length
  if changes = 0 then
    (.notFound "Friend not found", { db with rows := remaining })
  else
    (.ok "Friend deleted successfully", { db with rows := remaining })

/-- Handler of `DELETE /api/friends`: `DELETE FROM friends`, reporting
`this.changes` in the message. -/
def deleteAllFriends (db : DB) : ApiResult String × DB :=
  let changes := db.rows.length
  (.ok s!"Deleted {changes} friends", { db with rows := [] })

/-- The body of `GET /api/stats`. -/
structure Stats where
  totalFriends : Nat
  friendsWithNotes : Nat
  friendsWithRecommendations : Nat
deriving DecidableEq, Repr

/-- The SQL predicate `col IS NOT NULL AND col != ''` used by the stats
aggregate. -/
def textPresent : Option String → Bool
  | none => false
  | some s => !(s == "")

/-- Handler of `GET /api/stats`: the three aggregate counts over the full
table. -/
def getStats (db : DB) : ApiResult Stats :=
  .ok { totalFriends := db.rows.length
        friendsWithNotes := db.rows.countP fun r => textPresent r.notes
        friendsWithRecommendations :=
          db.rows.countP fun r => textPresent r.otherCities }

/-- Well-formedness of a database state: every stored id is below the
AUTOINCREMENT counter, and ids are pairwise distinct. -/
def WF (db : DB) : Prop :=
  (∀ r ∈ db.rows, r.id < db.nextId) ∧ (db.rows.map Row.id).Nodup

instance (db : DB) : Decidable (WF db) := by
  unfold WF
  infer_instance

/-! ### Helper lemmas -/

theorem textPresent_eq (o : Option String) :
    textPresent o = decide (o ≠ none ∧ o ≠ some "") := by
  cases o with
  | none => simp [textPresent]
  | some s => by_cases h : s = "" <;> simp [textPresent, h]

/-! ### Claims -/

/-- C1: `POST /api/friends` answers 400 and leaves the database unchanged
exactly when one of `name`, `location`, `coords`, `coords.lat`,
`coords.lng` is falsy; in particular a latitude or longitude of `0`
counts as falsy and is rejected. -/
theorem create_rejects_falsy_fields_iff (req : CreateReq) (now : Nat) (db : DB) :
    (((createFriend req now db).1.status = 400 ∧ (createFriend req now db).2 = db)
      ↔ (jsFalsyStr req.name || jsFalsyStr req.location || req.coords.isNone
          || jsFalsyNum (req.coords.bind Coords.lat)
          || jsFalsyNum (req.coords.bind Coords.lng)) = true)
    ∧ jsFalsyNum (some 0) = true := by
  have hdef : (jsFalsyStr req.name || jsFalsyStr req.location || req.coords.isNone
      || jsFalsyNum (req.coords.bind Coords.lat)
      || jsFalsyNum (req.coords.bind Coords.lng)) = createFailsValidation req := rfl
  refine ⟨?_, rfl⟩
  rw [hdef]
  cases h : createFailsValidation req with
  | true => simp [createFriend, h, ApiResult.status]
  | false =>
      simp only [createFriend, h, if_false, Bool.false_eq_true, iff_false]
      intro hc
      exact absurd hc.1 (by simp [ApiResult.status])

/-- C5: `DELETE /api/friends` empties the table and reports the number of
rows it held immediately before the operation. -/
theorem delete_all_reports_prior_count (db : DB) :
    deleteAllFriends db
      = (.ok ("Deleted " ++ toString db.rows.length ++ " friends"),
         { db with rows := [] }) := rfl

/-- C6: `GET /api/stats` returns the row count, the count of rows with
non-null non-empty `notes`, and the count of rows with non-null
non-empty `otherCities`; inserting one friend with notes and one without
yields `totalFriends = 2`, `friendsWithNotes = 1`. -/
theorem stats_counts (db : DB) :
    getStats db = .ok
      { totalFriends := db.rows.length
        friendsWithNotes :=
          (db.rows.filter fun r => decide (r.notes ≠ none ∧ r.notes ≠ some "")).length
        friendsWithRecommendations :=
          (db.rows.filter fun r =>
            decide (r.otherCities ≠ none ∧ r.otherCities ≠ some "")).length }
    ∧ getStats
        (createFriend
          { name := some "Bea", location := some "Paris", notes := none,
            otherCities := none, coords := some ⟨some 48, some 2⟩,
            displayName := none } 2
          (createFriend
            { name := some "Ana", location := some "Rome",
              notes := some "met in 2019", otherCities := none,
              coords := some ⟨some 41, some 12⟩,
              displayName := none } 1 ⟨[], 1⟩).2).2
      = .ok ⟨2, 1, 0⟩ := by
  constructor
  · unfold getStats
    simp only [List.countP_eq_length_filter, textPresent_eq]
  · decide

/-- C10: `DELETE /api/friends` never answers 404 — it always answers 200
with an `ok` body, and on an empty table reports "Deleted 0 friends" —
while `DELETE /api/friends/:id` answers 404 when no row matches. -/
theorem delete_all_succeeds_on_empty (db : DB) (n k : Nat) :
    (deleteAllFriends db).1.status = 200
    ∧ (∃ msg, (deleteAllFriends db).1 = ApiResult.ok msg)
    ∧ (deleteAllFriends ⟨[], n⟩).1 = .ok "Deleted 0 friends"
    ∧ (deleteFriend k ⟨[], n⟩).1 = .notFound "Friend not found" := by
  refine ⟨rfl, ⟨_, rfl⟩, ?_, rfl⟩
  have h0 : (deleteAllFriends ⟨[], n⟩).1
      = .ok ("Deleted " ++ toString (0 : Nat) ++ " friends") := rfl
  rw [h0]
  decide

/-- A sample stored row used to instantiate hypotheses concretely. -/
def sampleRow : Row :=
  { id := 1, name := "Ana", location := "Rome", notes := none,
    otherCities := none, latitude := 41, longitude := 12,
    displayName := none, timestamp := 0 }

theorem deleteFriend_rows (fid : Nat) (db : DB) :
    (deleteFriend fid db).2.rows = db.rows.filter fun r => !(r.id == fid) := by
  unfold deleteFriend
  dsimp only
  split <;> rfl

theorem filter_ne_eq_erase (fid : Nat) :
    ∀ l : List Row, (l.map Row.id).Nodup →
      ∀ r ∈ l, r.id = fid → l.filter (fun x => !(x.id == fid)) = l.erase r := by
  intro l
  induction l with
  | nil => intro _ r hr; cases hr
  | cons a t ih =>
      intro hnd r hr hid
      simp only [List.map_cons, List.nodup_cons] at hnd
      rcases List.mem_cons.mp hr with rfl | hrt
      · have hfil : t.filter (fun x => !(x.id == fid)) = t := by
          apply List.filter_eq_self.mpr
          intro b hb
          have hb' : b.id ≠ fid := by
            intro hbid
            exact hnd.1 (hid ▸ hbid ▸ List.mem_map_of_mem Row.id hb)
          simpa using hb'
        rw [List.filter_cons, List.erase_cons_head]
        simpa [hid] using hfil
      · have haid : a.id ≠ fid := by
          intro h'
          exact hnd.1 (h' ▸ hid ▸ List.mem_map_of_mem Row.id hrt)
        have hane : ¬(a == r) = true := by
          simp only [beq_iff_eq]
          intro h'
          exact haid (h' ▸ hid)
        rw [List.filter_cons, List.erase_cons_tail hane]
        simp [haid, ih hnd.2 r hrt hid]

/-- C2: the public list is fully determined by the public column
projection of the stored rows: rewriting every row's `notes` and
`otherCities` by arbitrary functions leaves `GET /api/friends/public`
unchanged, so those two fields are excluded from the public response no
matter what was supplied at creation. -/
theorem public_list_ignores_private_fields (db : DB) (f g : Row → Option String) :
    getFriendsPublic
      { db with rows := db.rows.map fun r => { r with notes := f r, otherCities := g r } }
      = getFriendsPublic db := by
  have key : ∀ l : List Row,
      (l.mergeSort fun a b => decide (b.timestamp ≤ a.timestamp)).map rowPublic
        = (l.map rowPublic).mergeSort fun a b => decide (b.timestamp ≤ a.timestamp) := by
    intro l
    exact List.map_mergeSort (fun a _ b _ => rfl)
  unfold getFriendsPublic orderByTimestampDesc
  rw [key, key, List.map_map]
  rfl

/-- C4: `DELETE /api/friends/:id` with a present id removes the matching
rows and reports success — under unique ids, exactly the one record with
that id is erased; with an absent id it affects zero rows, answers 404
"Friend not found", and leaves the table unchanged. -/
theorem delete_one_spec (fid : Nat) (db : DB) :
    ((∃ r ∈ db.rows, r.id = fid) →
      deleteFriend fid db
        = (.ok "Friend deleted successfully",
           { db with rows := db.rows.filter fun r => !(r.id == fid) }))
    ∧ ((∀ r ∈ db.rows, r.id ≠ fid) →
      deleteFriend fid db = (.notFound "Friend not found", db))
    ∧ ((db.rows.map Row.id).Nodup →
      ∀ r ∈ db.rows, r.id = fid →
        (deleteFriend fid db).2.rows = db.rows.erase r) := by
  refine ⟨?_, ?_, ?_⟩
  · intro h
    have hlt : (db.rows.filter fun r => !(r.id == fid)).length < db.rows.length := by
      rw [List.length_filter_lt_length_iff_exists]
      obtain ⟨r, hr, hid⟩ := h
      exact ⟨r, hr, by simp [hid]⟩
    have hch : db.rows.length - (db.rows.filter fun r => !(r.id == fid)).length ≠ 0 :=
      Nat.sub_ne_zero_of_lt hlt
    simp [deleteFriend, hch]
  · intro h
    have hfil : db.rows.filter (fun r => !(r.id == fid)) = db.rows := by
      apply List.filter_eq_self.mpr
      intro a ha
      simpa using h a ha
    simp [deleteFriend, hfil]
  · intro hnd r hr hid
    rw [deleteFriend_rows]
    exact filter_ne_eq_erase fid db.rows hnd r hr hid

theorem delete_one_spec_witness :
    deleteFriend 1 ⟨[sampleRow], 2⟩ = (.ok "Friend deleted successfully", ⟨[], 2⟩)
    ∧ deleteFriend 7 ⟨[sampleRow], 2⟩ = (.notFound "Friend not found", ⟨[sampleRow], 2⟩)
    ∧ (deleteFriend 1 ⟨[sampleRow], 2⟩).2.rows = [sampleRow].erase sampleRow := by
  refine ⟨?_, ?_, ?_⟩
  · exact (delete_one_spec 1 ⟨[sampleRow], 2⟩).1 ⟨sampleRow, by simp, rfl⟩
  · exact (delete_one_spec 7 ⟨[sampleRow], 2⟩).2.1 (by decide)
  · exact (delete_one_spec 1 ⟨[sampleRow], 2⟩).2.2 (by decide) sampleRow (by simp) rfl

/-- C7: both list endpoints return every stored friend — a permutation
of the full table, with no truncation — ordered by timestamp descending,
and the privileged list carries each row's `notes` via `rowFull`. -/
theorem list_endpoints_ordered_complete (db : DB) :
    ∃ lf lp, getFriends db = .ok lf ∧ getFriendsPublic db = .ok lp
      ∧ lf.Perm (db.rows.map rowFull) ∧ lp.Perm (db.rows.map rowPublic)
      ∧ lf.length = db.rows.length ∧ lp.length = db.rows.length
      ∧ lf.Pairwise (fun a b => b.timestamp ≤ a.timestamp)
      ∧ lp.Pairwise (fun a b => b.timestamp ≤ a.timestamp) := by
  have hperm := List.mergeSort_perm db.rows
    (fun a b => decide (b.timestamp ≤ a.timestamp))
  have hsorted := @List.sorted_mergeSort Row
    (fun a b : Row => decide (b.timestamp ≤ a.timestamp))
    (fun a b c hab hbc => by
      simp only [decide_eq_true_eq] at *
      exact le_trans hbc hab)
    (fun a b => by
      simp only [Bool.or_eq_true, decide_eq_true_eq]
      exact Nat.le_total b.timestamp a.timestamp)
    db.rows
  refine ⟨_, _, rfl, rfl, hperm.map rowFull, hperm.map rowPublic, ?_, ?_, ?_, ?_⟩
  · simp [orderByTimestampDesc, List.length_mergeSort]
  · simp [orderByTimestampDesc, List.length_mergeSort]
  · exact hsorted.map rowFull (fun a b hab => by
      simpa using hab)
  · exact hsorted.map rowPublic (fun a b hab => by
      simpa using hab)

theorem createFriend_valid_eq
    (nm loc : String) (la ln : Rat) (notes oc dn : Option String)
    (now : Nat) (db : DB)
    (hnm : nm ≠ "") (hloc : loc ≠ "") (hla : la ≠ 0) (hln : ln ≠ 0) :
    createFriend ⟨some nm, some loc, notes, oc, some ⟨some la, some ln⟩, dn⟩ now db
      = (.ok ⟨db.nextId, some nm, some loc, notes, oc, some ⟨some la, some ln⟩, dn,
              "Friend added successfully"⟩,
         ⟨db.rows ++ [⟨db.nextId, nm, loc, orNull notes, orNull oc, la, ln,
              orNull dn, now⟩],
          db.nextId + 1⟩) := by
  have hval : createFailsValidation
      ⟨some nm, some loc, notes, oc, some ⟨some la, some ln⟩, dn⟩ = false := by
    simp [createFailsValidation, jsFalsyStr, jsFalsyNum, hnm, hloc, hla, hln]
  simp [createFriend, hval]

/-- C3: creating a friend whose required fields are all truthy succeeds,
the response carries the newly assigned id and echoes the request
fields, and the subsequent privileged list contains the created
record. -/
theorem create_then_privileged_list_includes
    (nm loc : String) (la ln : Rat) (notes oc dn : Option String)
    (now : Nat) (db : DB)
    (hnm : nm ≠ "") (hloc : loc ≠ "") (hla : la ≠ 0) (hln : ln ≠ 0) :
    ∃ resp db2,
      createFriend ⟨some nm, some loc, notes, oc, some ⟨some la, some ln⟩, dn⟩ now db
        = (.ok resp, db2)
      ∧ resp.id = db.nextId
      ∧ resp.name = some nm ∧ resp.location = some loc
      ∧ resp.coords = some ⟨some la, some ln⟩
      ∧ ∃ l, getFriends db2 = .ok l
          ∧ rowFull ⟨db.nextId, nm, loc, orNull notes, orNull oc, la, ln,
              orNull dn, now⟩ ∈ l := by
  have hmem : (⟨db.nextId, nm, loc, orNull notes, orNull oc, la, ln,
      orNull dn, now⟩ : Row)
      ∈ db.rows ++ [⟨db.nextId, nm, loc, orNull notes, orNull oc, la, ln,
          orNull dn, now⟩] := by
    simp
  exact ⟨_, _, createFriend_valid_eq nm loc la ln notes oc dn now db hnm hloc hla hln,
    rfl, rfl, rfl, rfl, _, rfl,
    List.mem_map_of_mem rowFull (List.mem_mergeSort.mpr hmem)⟩

theorem create_then_privileged_list_includes_witness :
    ∃ resp db2,
      createFriend ⟨some "Ana", some "Rome", none, none,
          some ⟨some (41.9 : Rat), some (12.5 : Rat)⟩, none⟩ 1 ⟨[], 1⟩
        = (.ok resp, db2)
      ∧ resp.id = (⟨[], 1⟩ : DB).nextId
      ∧ resp.name = some "Ana" ∧ resp.location = some "Rome"
      ∧ resp.coords = some ⟨some (41.9 : Rat), some (12.5 : Rat)⟩
      ∧ ∃ l, getFriends db2 = .ok l
          ∧ rowFull ⟨(⟨[], 1⟩ : DB).nextId, "Ana", "Rome", orNull none, orNull none,
              (41.9 : Rat), (12.5 : Rat), orNull none, 1⟩ ∈ l :=
  create_then_privileged_list_includes "Ana" "Rome" 41.9 12.5 none none none 1 ⟨[], 1⟩
    (by decide) (by decide) (by norm_num) (by norm_num)

/-- C9: on a successful create the optional text fields pass through
`|| null` on the way into the table — an empty string is stored as SQL
NULL — while the success response echoes the raw request values
unchanged, so the response and a later privileged list can disagree on
those fields. -/
theorem create_stores_falsy_optionals_as_null
    (nm loc : String) (la ln : Rat) (notes oc dn : Option String)
    (now : Nat) (db : DB)
    (hnm : nm ≠ "") (hloc : loc ≠ "") (hla : la ≠ 0) (hln : ln ≠ 0) :
    (∃ resp db2,
      createFriend ⟨some nm, some loc, notes, oc, some ⟨some la, some ln⟩, dn⟩ now db
        = (.ok resp, db2)
      ∧ resp.notes = notes ∧ resp.otherCities = oc ∧ resp.displayName = dn
      ∧ db2.rows = db.rows
          ++ [⟨db.nextId, nm, loc, orNull notes, orNull oc, la, ln, orNull dn, now⟩])
    ∧ orNull (some "") = none :=
  ⟨⟨_, _, createFriend_valid_eq nm loc la ln notes oc dn now db hnm hloc hla hln,
    rfl, rfl, rfl, rfl⟩, rfl⟩

theorem create_stores_falsy_optionals_as_null_witness :
    (∃ resp db2,
      createFriend ⟨some "Ana", some "Rome", some "", some "",
          some ⟨some (41 : Rat), some (12 : Rat)⟩, some ""⟩ 3 ⟨[], 1⟩
        = (.ok resp, db2)
      ∧ resp.notes = some "" ∧ resp.otherCities = some ""
      ∧ resp.displayName = some ""
      ∧ db2.rows = (⟨[], 1⟩ : DB).rows
          ++ [⟨(⟨[], 1⟩ : DB).nextId, "Ana", "Rome", orNull (some ""),
              orNull (some ""), (41 : Rat), (12 : Rat), orNull (some ""), 3⟩])
    ∧ orNull (some "") = none :=
  create_stores_falsy_optionals_as_null "Ana" "Rome" 41 12
    (some "") (some "") (some "") 3 ⟨[], 1⟩
    (by decide) (by decide) (by norm_num) (by norm_num)

theorem deleteFriend_nextId (fid : Nat) (db : DB) :
    (deleteFriend fid db).2.nextId = db.nextId := by
  unfold deleteFriend
  dsimp only
  split <;> rfl

/-- C8: every operation keeps stored ids pairwise distinct and below the
AUTOINCREMENT counter (`WF`), and no operation rewrites an existing row:
create either leaves the table unchanged or appends one fresh row, and
both delete operations only remove rows (the remaining table is a
sublist of the old one). -/
theorem operations_preserve_invariants (req : CreateReq) (now fid : Nat) (db : DB)
    (h : WF db) :
    WF (createFriend req now db).2 ∧ WF (deleteFriend fid db).2
    ∧ WF (deleteAllFriends db).2
    ∧ ((createFriend req now db).2.rows = db.rows
        ∨ ∃ r, (createFriend req now db).2.rows = db.rows ++ [r])
    ∧ (deleteFriend fid db).2.rows.Sublist db.rows
    ∧ (deleteAllFriends db).2.rows.Sublist db.rows := by
  have hdelsub : (deleteFriend fid db).2.rows.Sublist db.rows := by
    rw [deleteFriend_rows]
    exact List.filter_sublist db.rows
  have hWFdel : WF (deleteFriend fid db).2 := by
    constructor
    · intro r hr
      rw [deleteFriend_nextId]
      exact h.1 r (hdelsub.subset hr)
    · exact ((hdelsub.map Row.id).nodup h.2 : _)
  have hWFall : WF (deleteAllFriends db).2 := by
    constructor
    · intro r hr
      simp [deleteAllFriends] at hr
    · simp [deleteAllFriends]
  have hcreate : WF (createFriend req now db).2
      ∧ ((createFriend req now db).2.rows = db.rows
          ∨ ∃ r, (createFriend req now db).2.rows = db.rows ++ [r]) := by
    cases hv : createFailsValidation req with
    | true =>
        refine ⟨?_, Or.inl ?_⟩ <;> simp [createFriend, hv]
        exact h
    | false =>
        set row : Row :=
          { id := db.nextId, name := req.name.getD "",
            location := req.location.getD "", notes := orNull req.notes,
            otherCities := orNull req.otherCities,
            latitude := (req.coords.bind Coords.lat).getD 0,
            longitude := (req.coords.bind Coords.lng).getD 0,
            displayName := orNull req.displayName, timestamp := now } with hrowdef
        have heq : (createFriend req now db).2 = ⟨db.rows ++ [row], db.nextId + 1⟩ := by
          simp [createFriend, hv, hrowdef]
        have hrowid : row.id = db.nextId := by rw [hrowdef]
        refine ⟨?_, Or.inr ⟨row, by rw [heq]⟩⟩
        rw [heq]
        constructor
        · intro r hr
          rcases List.mem_append.mp hr with hr1 | hr2
          · exact lt_trans (h.1 r hr1) (Nat.lt_succ_self _)
          · have hr2' : r = row := by simpa using hr2
            rw [hr2', hrowid]
            exact Nat.lt_succ_self _
        · rw [List.map_append, List.nodup_append]
          refine ⟨h.2, List.nodup_singleton _, ?_⟩
          intro x hx hxs
          obtain ⟨r, hr, rfl⟩ := List.mem_map.mp hx
          have hlt : r.id < db.nextId := h.1 r hr
          have hxeq : r.id = row.id := by simpa using hxs
          rw [hxeq, hrowid] at hlt
          exact absurd hlt (lt_irrefl _)
  exact ⟨hcreate.1, hWFdel, hWFall, hcreate.2, hdelsub, List.nil_sublist _⟩

theorem operations_preserve_invariants_witness :
    WF (createFriend ⟨some "Bea", some "Paris", none, none,
          some ⟨some 48, some 2⟩, none⟩ 5 ⟨[sampleRow], 2⟩).2
    ∧ WF (deleteFriend 1 ⟨[sampleRow], 2⟩).2
    ∧ WF (deleteAllFriends ⟨[sampleRow], 2⟩).2
    ∧ ((createFriend ⟨some "Bea", some "Paris", none, none,
            some ⟨some 48, some 2⟩, none⟩ 5 ⟨[sampleRow], 2⟩).2.rows
          = (⟨[sampleRow], 2⟩ : DB).rows
        ∨ ∃ r, (createFriend ⟨some "Bea", some "Paris", none, none,
            some ⟨some 48, some 2⟩, none⟩ 5 ⟨[sampleRow], 2⟩).2.rows
          = (⟨[sampleRow], 2⟩ : DB).rows ++ [r])
    ∧ (deleteFriend 1 ⟨[sampleRow], 2⟩).2.rows.Sublist (⟨[sampleRow], 2⟩ : DB).rows
    ∧ (deleteAllFriends ⟨[sampleRow], 2⟩).2.rows.Sublist (⟨[sampleRow], 2⟩ : DB).rows :=
  operations_preserve_invariants ⟨some "Bea", some "Paris", none, none,
    some ⟨some 48, some 2⟩, none⟩ 5 1 ⟨[sampleRow], 2⟩ (by decide)
